import Mathlib

/-!
# Novus Academica — verification of the LLM orchestration pipeline

Shallow embedding, in Lean 4, of the claim-relevant logic of the
Novus Academica repository.  The repository ships two variants of its
service layer (`src/services/geminiService.ts` holds two concatenated
revisions of the file) and two variants of its application shell
(`src/App.tsx` and the unnamed `src/unnamed/part_003`).  Definitions below
are translated from that TypeScript source; where the two revisions of a
function differ, both are embedded (namespaces `ServiceV1` for the first
document in `geminiService.ts`, `ServiceV2` for the second; `AppMain` for
`src/App.tsx`, `AppAlt` for `src/unnamed/part_003`).

External JavaScript builtins are modelled as explicit parameters:
* `decode : String → Option String` stands for `atob` + `TextDecoder`
  (`none` models a decoding exception, which the source catches),
* `JP : String → Except String α` stands for `JSON.parse` (`.error`
  models a thrown `SyntaxError`),
* `provider : String → List ContentPart → Nat → CallResult String` stands
  for `ai.models.generateContent`: given a model name, the request parts
  and an attempt index it either yields the response text (`.ok`) or a
  thrown error's message (`.err`).  The attempt index distinguishes the
  successive attempts a retry loop makes against the same request.

JavaScript strings are modelled as Lean `String`s; `String.includes`
becomes `strContains`, `endsWith` becomes `strEndsWith`, and
`toLowerCase` becomes `strToLower` (the messages involved are ASCII).
-/

/-- `strContains s pat` models JavaScript `s.includes(pat)`:
substring containment. -/
def strContains (s pat : String) : Bool :=
  (List.range (s.data.length + 1)).any (fun i => pat.data.isPrefixOf (s.data.drop i))

/-- `strEndsWith s suffix` models JavaScript `s.endsWith(suffix)`. -/
def strEndsWith (s suffix : String) : Bool :=
  suffix.data.isSuffixOf s.data

/-- `strToLower` models JavaScript `toLowerCase` (character-wise
lowercasing; the messages involved are ASCII). -/
def strToLower (s : String) : String :=
  String.mk (s.data.map Char.toLower)

/-- Outcome of one provider attempt (or, generally, of one `await`ed
operation): the resolved value, or the message of the thrown error. -/
inductive CallResult (α : Type) where
  | ok (v : α)
  | err (msg : String)
deriving Repr, DecidableEq

/-- Transient-error classifier of the first `callWithRetry`
(`geminiService.ts`, first document, lines 29–35).  The argument is the
already-lowercased error message, as in the source
(`error.message?.toLowerCase() || ""`). -/
def isRetryableV1 (msg : String) : Bool :=
  strContains msg "429" || strContains msg "503" || strContains msg "quota" ||
    strContains msg "resource exhausted" || strContains msg "rate limit"

/-- Transient-error classifier of the second `callWithRetry`
(`geminiService.ts`, second document, line 274).  Unlike `isRetryableV1`
it does not test for the substring "rate limit". -/
def isRetryableV2 (msg : String) : Bool :=
  strContains msg "429" || strContains msg "503" || strContains msg "quota" ||
    strContains msg "resource exhausted"

/-- The Retry Governor `callWithRetry` (both service documents; they share
this recursion and differ only in the classifier, passed here as `isR`).
`fn k` is the outcome of attempt number `k` of the wrapped operation.
Returns the final outcome together with the list of backoff delays (in
milliseconds) actually performed, in order.  Mirrors the source: on
success return; on failure, if the lowercased message is classified
transient and `retries > 0`, wait `delayMs` and recurse with
`retries - 1` and `delayMs * 2`; otherwise rethrow the error unchanged. -/
def callWithRetry (isR : String → Bool) : (Nat → CallResult α) → Nat → Nat →
    CallResult α × List Nat
  | fn, 0, _ =>
    match fn 0 with
    | .ok v => (.ok v, [])
    | .err e => (.err e, [])
  | fn, r + 1, delayMs =>
    match fn 0 with
    | .ok v => (.ok v, [])
    | .err e =>
      if isR (strToLower e) then
        let res := callWithRetry isR (fun k => fn (k + 1)) r (delayMs * 2)
        (res.1, delayMs :: res.2)
      else (.err e, [])

theorem callWithRetry_ok {fn : Nat → CallResult α} {v : α} (isR : String → Bool)
    (r d : Nat) (h : fn 0 = .ok v) :
    callWithRetry isR fn r d = (.ok v, []) := by
  cases r <;> simp [callWithRetry, h]

theorem callWithRetry_err_final {fn : Nat → CallResult α} {e : String}
    (isR : String → Bool) (r d : Nat) (h : fn 0 = .err e)
    (hR : isR (strToLower e) = false) :
    callWithRetry isR fn r d = (.err e, []) := by
  cases r <;> simp [callWithRetry, h, hR]

theorem callWithRetry_err_exhausted {fn : Nat → CallResult α} {e : String}
    (isR : String → Bool) (d : Nat) (h : fn 0 = .err e) :
    callWithRetry isR fn 0 d = (.err e, []) := by
  simp [callWithRetry, h]

theorem callWithRetry_err_retry {fn : Nat → CallResult α} {e : String}
    (isR : String → Bool) (r d : Nat) (h : fn 0 = .err e)
    (hR : isR (strToLower e) = true) :
    callWithRetry isR fn (r + 1) d =
      ((callWithRetry isR (fun k => fn (k + 1)) r (d * 2)).1,
        d :: (callWithRetry isR (fun k => fn (k + 1)) r (d * 2)).2) := by
  simp [callWithRetry, h, hR]

/-- If every attempt fails with the same transient message, the default
schedule (3 retries, 2000 ms initial delay) performs exactly the waits
2000, 4000, 8000 and then propagates the error unchanged. -/
theorem callWithRetry_default_schedule {fn : Nat → CallResult α} {e : String}
    (isR : String → Bool) (h : ∀ k, fn k = .err e) (hR : isR (strToLower e) = true) :
    callWithRetry isR fn 3 2000 = (.err e, [2000, 4000, 8000]) := by
  rw [callWithRetry_err_retry isR 2 2000 (h 0) hR,
    callWithRetry_err_retry isR 1 4000 (h 1) hR,
    callWithRetry_err_retry isR 0 8000 (h 2) hR,
    callWithRetry_err_exhausted isR 16000 (h 3)]

/-- `UploadedFile` (src `types.ts`): `data` is the base64/data-URL payload. -/
structure UploadedFile where
  name : String
  type : String
  data : String
deriving Repr, DecidableEq

/-- A provider-consumable content part: `inlineData` models
`{ inlineData: { mimeType, data } }`, `text` models `{ text }`. -/
inductive ContentPart where
  | inlineData (mimeType : String) (data : String)
  | text (t : String)
deriving Repr, DecidableEq

/-- End position (exclusive of the 8-character ";base64," tail) of the
greedy match of the JavaScript regex `^data:.+;base64,` on `cs`:
"data:" (5 chars), then at least one non-newline char, then ";base64,",
with `.` not matching a newline and the `.+` greedy (largest `i`). -/
def dataUrlHeaderEnd (cs : List Char) : Option Nat :=
  if "data:".data.isPrefixOf cs then
    (List.range (cs.length + 1)).reverse.find? (fun i =>
      decide (6 ≤ i) && ";base64,".data.isPrefixOf (cs.drop i) &&
        (cs.take i).all (fun c => c ≠ '\n'))
  else none

/-- `cleanBase64` (both service documents, identical): strips a leading
data-URL header, `b64.replace(/^data:.+;base64,/, '')`. -/
def cleanBase64 (s : String) : String :=
  match dataUrlHeaderEnd s.data with
  | some i => String.mk (s.data.drop (i + 8))
  | none => s

/-- `decodeBase64Text` (both service documents, identical): `atob` plus
`TextDecoder`, modelled by the external `decode`; a thrown decoding error
(modelled by `none`) is caught and yields the empty string. -/
def decodeBase64Text (decode : String → Option String) (b64 : String) : String :=
  match decode b64 with
  | some t => t
  | none => ""

namespace ServiceV1

/-- `prepareFileParts` (first service document, lines 46–64):
`files.map(...).filter(p => p !== null)`, i.e. a `filterMap`.  PDF-typed
files become an inline binary part with the PDF media type; files whose
declared type contains "text" or whose name ends in ".txt" or ".md"
become a tagged text part; everything else is dropped.  Note this
revision does not recognize the ".tex"/".latex" suffixes. -/
def prepareFileParts (decode : String → Option String)
    (files : List UploadedFile) : List ContentPart :=
  files.filterMap (fun f =>
    if strContains f.type "pdf" then
      some (.inlineData "application/pdf" (cleanBase64 f.data))
    else if strContains f.type "text" || strEndsWith f.name ".txt"
        || strEndsWith f.name ".md" then
      some (.text ("[Source Document: " ++ f.name ++ "]\n"
        ++ decodeBase64Text decode (cleanBase64 f.data) ++ "\n---"))
    else none)

end ServiceV1

namespace ServiceV2

/-- `prepareFilePart` (second service document, lines 285–294): like the
first revision's preparer but also recognizing the ".tex" and ".latex"
name suffixes for the text branch. -/
def prepareFilePart (decode : String → Option String)
    (f : UploadedFile) : Option ContentPart :=
  if strContains f.type "pdf" then
    some (.inlineData "application/pdf" (cleanBase64 f.data))
  else if strContains f.type "text" || strEndsWith f.name ".txt"
      || strEndsWith f.name ".md" || strEndsWith f.name ".tex"
      || strEndsWith f.name ".latex" then
    some (.text ("[Source Document: " ++ f.name ++ "]\n"
      ++ decodeBase64Text decode (cleanBase64 f.data) ++ "\n---"))
  else none

/-- The formats `prepareFilePart` accepts (the disjunction of its two
positive branches); used to state the claims about condensation. -/
def supportedFormat (f : UploadedFile) : Bool :=
  strContains f.type "pdf" || strContains f.type "text"
    || strEndsWith f.name ".txt" || strEndsWith f.name ".md"
    || strEndsWith f.name ".tex" || strEndsWith f.name ".latex"

theorem prepareFilePart_isSome (decode : String → Option String)
    (f : UploadedFile) :
    (prepareFilePart decode f).isSome = supportedFormat f := by
  unfold prepareFilePart supportedFormat
  by_cases h1 : strContains f.type "pdf" = true <;>
    by_cases h2 : (strContains f.type "text" || strEndsWith f.name ".txt"
      || strEndsWith f.name ".md" || strEndsWith f.name ".tex"
      || strEndsWith f.name ".latex") = true <;>
    simp_all

end ServiceV2

/-- Counting lemma behind the direct-inclusion claim: when `g` yields a
part exactly on the elements satisfying `p`, `filterMap g` has one
element per element satisfying `p`. -/
theorem length_filterMap_eq_count {α β : Type} (g : α → Option β) (p : α → Bool)
    (hg : ∀ a, (g a).isSome = p a) (l : List α) :
    (l.filterMap g).length = (l.filter p).length := by
  induction l with
  | nil => simp
  | cons a t ih =>
    have := hg a
    cases hga : g a with
    | none =>
      rw [hga] at this
      simp only [List.filterMap_cons, hga, List.filter_cons, ← this]
      simpa using ih
    | some b =>
      rw [hga] at this
      simp only [List.filterMap_cons, hga, List.filter_cons, ← this]
      simpa using ih

/-- `ChatMessage` (src `types.ts` of the chat-enabled revision; fields as
used by `src/App.tsx`): `role` is "user" or "model". -/
structure ChatMessage where
  role : String
  text : String
  timestamp : Nat
deriving Repr, DecidableEq

/-- The transform-tool vocabulary `MagicToolType`. -/
inductive MagicToolType where
  | Expand
  | Condense
  | FixGrammar
  | MakeRigorous
deriving Repr, DecidableEq

/-- Observable provider-facing events of an analysis run, in order:
`summarize n` records the summarization request issued for the document
named `n`; `pause ms` records the artificial delay inside the map-reduce
loop; `combine` records the issuance of the single combining analysis
request (whose retry/fallback attempts are modelled in the result, not
as further trace events). -/
inductive ApiEvent where
  | summarize (fileName : String)
  | pause (ms : Nat)
  | combine
deriving Repr, DecidableEq

/-- `true` exactly on `ApiEvent.summarize` events. -/
def ApiEvent.isSummarize : ApiEvent → Bool
  | .summarize _ => true
  | _ => false

namespace ServiceV2

/-- The `"{}"` literal that the second `analyzeFilesForNovelty` feeds to
`JSON.parse` when the response text is empty (`response.text || "{}"`). -/
def emptyJsonLiteral : String := "\x7b\x7d"

/-- The summarization prompt of `summarizeFile` (second service document,
lines 313–321). -/
def summarizePrompt : String :=
  "\n    Analyze this research document. Extract:\n    1. Core Research Question\n    2. Key Methodology/Techniques\n    3. Main Findings/Claims\n    4. Any important citations (Author, Year)\n    \n    Output strictly as a concise summary text.\n  "

/-- `summarizeFile` (second service document, lines 308–334): if the file
has no supported-format part, return `""` without any provider call;
otherwise issue one direct (non-retried) call to the fast model and tag
the response, degrading to `""` on a caught error.  Returns the summary
text together with the provider events issued. -/
def summarizeFile (decode : String → Option String)
    (provider : String → List ContentPart → Nat → CallResult String)
    (f : UploadedFile) : String × List ApiEvent :=
  match prepareFilePart decode f with
  | none => ("", [])
  | some part =>
    match provider "gemini-2.5-flash" [part, .text summarizePrompt] 0 with
    | .ok t => ("[Summary of " ++ f.name ++ "]:\n" ++ t ++ "\n---\n",
        [.summarize f.name])
    | .err _ => ("", [.summarize f.name])

/-- The sequential summarization loop of `analyzeFilesForNovelty` (second
service document, lines 346–352): one `summarizeFile` per document, each
followed by the 500 ms pause, strictly in file order. -/
def summarizeLoop (decode : String → Option String)
    (provider : String → List ContentPart → Nat → CallResult String) :
    List UploadedFile → List String × List ApiEvent
  | [] => ([], [])
  | f :: rest =>
    let head := summarizeFile decode provider f
    let tail := summarizeLoop decode provider rest
    (head.1 :: tail.1, head.2 ++ [.pause 500] ++ tail.2)

/-- The Condensation Strategy of `analyzeFilesForNovelty` (second service
document, lines 341–358): with more than 2 files, map-reduce (summaries
joined into one text part); otherwise direct inclusion via
`files.map(prepareFilePart).filter(p => p !== null)`. -/
def processingParts (decode : String → Option String)
    (provider : String → List ContentPart → Nat → CallResult String)
    (files : List UploadedFile) : List ContentPart × List ApiEvent :=
  if 2 < files.length then
    let s := summarizeLoop decode provider files
    ([.text ("Here are summaries of the provided source materials:\n"
      ++ String.intercalate "\n" s.1)], s.2)
  else
    (files.filterMap (prepareFilePart decode), [])

/-- The analysis prompt of the second `analyzeFilesForNovelty` (lines
360–380). -/
def analysisPrompt : String :=
  "\n    You are an AI-powered Chief Publication Officer (CPO). Analyze the resources for a Q1 Journal Manuscript.\n    \n    **GUIDELINES:**\n    1. Identify SOTA Weaknesses/Gaps based on the provided materials.\n    2. Select a specific Q1 Venue.\n    3. Ensure Logic Flow: Problem -> Solution -> Validation -> Implication.\n    4. **Extract Sources:** Look for key papers cited in the text/summaries and list them.\n    \n    **Return JSON:**\n    \x7b\n      \"title\": \"High-impact title\",\n      \"target_journal\": \"Journal Name\",\n      \"gap\": \"Research Gap\",\n      \"novelty\": \"Bullet points of contribution\",\n      \"methodology_plan\": \"Math/Architecture brief\",\n      \"expected_results\": \"Hypothesis/Claims\",\n      \"checklist\": \x7b \"novelty_check\": \"...\", \"significance_check\": \"...\", \"clarity_check\": \"...\", \"journal_fit_check\": \"...\" \x7d,\n      \"references\": [\"Author, Year, Title\", ...]\n    \x7d\n  "

/-- `analyzeFilesForNovelty` (second service document, lines 336–430).
After condensation, the combining request is run on the Pro tier wrapped
by `callWithRetry`; the response text is defaulted to `"{}"` when empty
and fed to `JSON.parse` (`JP`).  Any failure of that whole block (retry
exhaustion or a parse error) triggers the same request on the Flash
tier, again retried; a failure of the fallback block is surfaced as
"Analysis failed after retries: …".  Returns the result and the event
trace. -/
def analyzeFilesForNovelty {α : Type} (decode : String → Option String)
    (JP : String → Except String α)
    (provider : String → List ContentPart → Nat → CallResult String)
    (files : List UploadedFile) : Except String α × List ApiEvent :=
  let pp := processingParts decode provider files
  let reqParts := pp.1 ++ [ContentPart.text analysisPrompt]
  let primary : Except String α :=
    match (callWithRetry isRetryableV2 (provider "gemini-3-pro-preview" reqParts)
        3 2000).1 with
    | .ok txt => JP (if txt = "" then emptyJsonLiteral else txt)
    | .err e => .error e
  let result : Except String α :=
    match primary with
    | .ok v => .ok v
    | .error _ =>
      let fb : Except String α :=
        match (callWithRetry isRetryableV2 (provider "gemini-2.5-flash" reqParts)
            3 2000).1 with
        | .ok txt => JP (if txt = "" then emptyJsonLiteral else txt)
        | .err e => .error e
      match fb with
      | .ok v => .ok v
      | .error fe => .error ("Analysis failed after retries: " ++ fe)
  (result, pp.2 ++ [ApiEvent.combine])

/-- The fixed instruction attached by `applyMagicTool` for each transform
kind (second service document, lines 483–488). -/
def magicInstruction : MagicToolType → String
  | .Expand => "Expand this text with more detailed explanations, examples, and academic nuance. Increase word count by ~30%."
  | .Condense => "Condense this text to be more concise and punchy without losing key technical meaning. Reduce word count by ~30%."
  | .FixGrammar => "Fix all grammar, punctuation, and stylistic errors. Ensure perfect native-level academic English."
  | .MakeRigorous => "Inject more mathematical formalism. Convert descriptive logic into LaTeX equations where possible. Use more precise terminology."

/-- The request body built by `applyMagicTool` (lines 490–495). -/
def magicPrompt (tool : MagicToolType) (text : String) : String :=
  "\n    Task: Apply the following transformation to the text: \""
    ++ magicInstruction tool ++ "\"\n    \n    Text:\n    " ++ text ++ "\n  "

/-- `applyMagicTool` (second service document, lines 479–506): one
retried Flash-tier call; an empty response text or any caught error
yields the original text.  The function is total (the source catches
every error), modelling "never throws". -/
def applyMagicTool (provider : String → List ContentPart → Nat → CallResult String)
    (text : String) (tool : MagicToolType) : String :=
  match (callWithRetry isRetryableV2
      (provider "gemini-2.5-flash" [ContentPart.text (magicPrompt tool text)])
      3 2000).1 with
  | .ok t => if t = "" then text else t
  | .err _ => text

/-- The analysis-metadata context handed to `consultCPO`. -/
structure CpoContext where
  title : String
  gap : String
  novelty : String
deriving Repr, DecidableEq

/-- The grounding preamble of `consultCPO` (lines 515–523). -/
def cpoSystemContext (ctx : CpoContext) : String :=
  "\n    You are the Chief Publication Officer (CPO) assisting an author.\n    Current Paper Context:\n    Title: " ++ ctx.title ++ "\n    Gap: " ++ ctx.gap ++ "\n    Novelty: " ++ ctx.novelty
    ++ "\n    \n    Answer the user\x27s question about their paper. Be critical, helpful, and strategic (Q1 focus).\n  "

/-- `history.slice(-10)`: the most recent 10 turns (all of them when
fewer exist). -/
def sliceLast10 (history : List ChatMessage) : List ChatMessage :=
  history.drop (history.length - 10)

/-- The full request text of `consultCPO` (line 525 and 531): preamble,
the bounded conversation window, then the user query. -/
def cpoContents (query : String) (history : List ChatMessage)
    (ctx : CpoContext) : String :=
  cpoSystemContext ctx ++ "\n\nPrevious Chat:\n"
    ++ String.intercalate "\n"
      ((sliceLast10 history).map (fun h => h.role ++ ": " ++ h.text))
    ++ "\n\nUser: " ++ query

/-- `consultCPO` (second service document, lines 508–546): Pro tier with
retries; empty text falls back to a fixed reply.  On failure, Flash tier
with retries, same empty-text handling.  If that fails too, a static
unavailability message.  Total: the source catches every error. -/
def consultCPO (provider : String → List ContentPart → Nat → CallResult String)
    (query : String) (history : List ChatMessage) (ctx : CpoContext) : String :=
  let contents := cpoContents query history ctx
  match (callWithRetry isRetryableV2
      (provider "gemini-3-pro-preview" [ContentPart.text contents]) 3 2000).1 with
  | .ok t => if t = "" then "I cannot answer that right now." else t
  | .err _ =>
    match (callWithRetry isRetryableV2
        (provider "gemini-2.5-flash" [ContentPart.text contents]) 3 2000).1 with
    | .ok t => if t = "" then "I cannot answer that right now." else t
    | .err _ => "The CPO is currently unavailable (Quota Exceeded)."

end ServiceV2

namespace ServiceV1

/-- The analysis prompt of the first `analyzeFilesForNovelty` (first
service document, lines 86–106). -/
def analysisPrompt : String :=
  "\n    You are an AI-powered Chief Publication Officer (CPO). Your goal is to analyze the provided resources and synthesize a complete, Q1 Journal-Ready Manuscript Blueprint.\n    \n    **GUIDELINES:**\n    1. **Preliminary Analysis:** Identify SOTA Weaknesses/Gaps. If resources are sparse, automatically select a Cross-Domain Topic (e.g., Causal ML x LLM).\n    2. **Target:** Select a specific Q1 Venue (e.g., IEEE T-PAMI, Nature Electronics, JMLR).\n    3. **Writing Order 2A Logic:** Ensure the blueprint flows: Problem -> Solution -> Validation -> Implication.\n    \n    **TASK: Generate a JSON object containing:**\n    1. **title**: Informative and catchy Q1 title.\n    2. **target_journal**: Specific Q1 journal name.\n    3. **gap**: The critical Research Gap (SOTA limitations).\n    4. **novelty**: The Contribution (Bullet points of specific contributions).\n    5. **methodology_plan**: Brief on Architecture & Mathematical Rigor (Mention Loss Functions like $L_\x7btotal\x7d$).\n    6. **expected_results**: Clear Claim (e.g., Superior robustness).\n    7. **checklist**: A \"Reviewer Focus Check\" object with:\n       - **novelty_check**: Is the cross-domain combination unique?\n       - **significance_check**: Is the Impact Factor high enough?\n       - **clarity_check**: Is the Problem Statement clear/concise?\n       - **journal_fit_check**: Why does this strictly fit the chosen journal\x27s scope?\n  "

/-- `analyzeFilesForNovelty` (first service document, lines 77–149).
Single Pro-tier request wrapped by `callWithRetry` (with this revision's
classifier).  An empty parts list is rejected up front; inside the
`try`, an empty response text throws "Empty response from AI" and the
text is otherwise fed to `JSON.parse` (`JP`).  The `catch` rethrows
`new Error(error.message || "Failed to analyze documents.")`, i.e. the
message is preserved unless empty. -/
def analyzeFilesForNovelty {α : Type} (decode : String → Option String)
    (JP : String → Except String α)
    (provider : String → List ContentPart → Nat → CallResult String)
    (files : List UploadedFile) : Except String α :=
  let fileParts := prepareFileParts decode files
  if fileParts.length = 0 then
    .error "No valid PDF or Text files found to analyze."
  else
    let reqParts := fileParts ++ [ContentPart.text analysisPrompt]
    let body : Except String α :=
      match (callWithRetry isRetryableV1 (provider "gemini-3-pro-preview" reqParts)
          3 2000).1 with
      | .ok txt => if txt = "" then .error "Empty response from AI" else JP txt
      | .err e => .error e
    match body with
    | .ok v => .ok v
    | .error e => .error (if e = "" then "Failed to analyze documents." else e)

end ServiceV1

/-- `QualityChecklist` (src `types.ts`). -/
structure QualityChecklist where
  novelty_check : String
  significance_check : String
  clarity_check : String
  journal_fit_check : String
deriving Repr, DecidableEq

/-- `PaperSection` (src `types.ts`): `id` and `type` hold the (string)
section-kind enum value. -/
structure PaperSection where
  id : String
  type : String
  title : String
  content : String
  isGenerating : Bool
  notes : String
deriving Repr, DecidableEq

/-- `ResearchState` as initialized by `src/App.tsx` (lines 32–53).  The
alternate shell `src/unnamed/part_003` uses the subset without
`extractedReferences`, `chatHistory` and `isChatOpen`; its handler below
never touches those fields, so the richer record serves both. -/
structure ResearchState where
  files : List UploadedFile
  paperTitle : String
  researchGap : String
  noveltyClaim : String
  targetJournal : String
  methodologyPlan : String
  expectedResults : String
  qualityChecklist : Option QualityChecklist
  extractedReferences : List String
  chatHistory : List ChatMessage
  isChatOpen : Bool
  sections : List PaperSection
  activeSectionId : Option String
deriving Repr, DecidableEq

/-- The first state update of `handleGenerateSection` (both shells):
`prev => ({ ...prev, sections: prev.sections.map(s => s.id === sectionId
? { ...s, isGenerating: true } : s) })`. -/
def markGenerating (sectionId : String) (st : ResearchState) : ResearchState :=
  { st with sections := st.sections.map (fun s =>
      if s.id == sectionId then { s with isGenerating := true } else s) }

/-- The commit update of `handleGenerateSection` (both shells,
`src/App.tsx` line 219 / `part_003` lines 204–208): a functional update
setting only the target section's `isGenerating` and `content`. -/
def commitSection (sectionId content : String) (st : ResearchState) :
    ResearchState :=
  { st with sections := st.sections.map (fun s =>
      if s.id == sectionId then { s with isGenerating := false, content := content }
      else s) }

/-- Applies queued functional state updates in order (React applies each
`setState(fn)` to the latest state at commit time). -/
def applyUpdates (us : List (ResearchState → ResearchState))
    (st : ResearchState) : ResearchState :=
  us.foldl (fun s f => f s) st

/-- Observable outcome of one `handleGenerateSection` invocation: the
blocking alert raised (if any), the functional state updates passed to
`setState` in order, and the number of provider calls incurred. -/
structure HandlerResult where
  alert : Option String
  updates : List (ResearchState → ResearchState)
  providerCalls : Nat

namespace AppMain

/-- `handleGenerateSection` (src/App.tsx, lines 209–220).  `draftContent`
and `draftCalls` stand for the text returned by `generateSectionContent`
(which never throws: it degrades to an inline error string) and the
number of provider calls that invocation makes.  Absence of an analysis
result is the guard `!state.noveltyClaim`, i.e. `noveltyClaim = ""`;
when it trips the handler alerts and returns before any call or update.
The section lookup uses the captured snapshot `st0`, after the
mark-generating update was already queued, exactly as in the source. -/
def handleGenerateSection (st0 : ResearchState) (sectionId : String)
    (draftContent : String) (draftCalls : Nat) : HandlerResult :=
  if st0.noveltyClaim = "" then
    { alert := some "Run Analysis first.", updates := [], providerCalls := 0 }
  else
    match st0.sections.find? (fun s => s.id == sectionId) with
    | none =>
      { alert := none, updates := [markGenerating sectionId], providerCalls := 0 }
    | some _ =>
      { alert := none
        updates := [markGenerating sectionId, commitSection sectionId draftContent]
        providerCalls := draftCalls }

end AppMain

namespace AppAlt

/-- `handleGenerateSection` (src/unnamed/part_003, lines 176–208).  Same
shape as `AppMain.handleGenerateSection` but with a different alert text
and an additional guard rejecting files whose `data` payload is empty. -/
def handleGenerateSection (st0 : ResearchState) (sectionId : String)
    (draftContent : String) (draftCalls : Nat) : HandlerResult :=
  if st0.noveltyClaim = "" then
    { alert := some "Run \x27Deep Analysis\x27 first.", updates := []
      providerCalls := 0 }
  else if !(st0.files.all (fun f => f.data ≠ "")) then
    { alert := some "File data is missing. Re-upload files.", updates := []
      providerCalls := 0 }
  else
    match st0.sections.find? (fun s => s.id == sectionId) with
    | none =>
      { alert := none, updates := [markGenerating sectionId], providerCalls := 0 }
    | some _ =>
      { alert := none
        updates := [markGenerating sectionId, commitSection sectionId draftContent]
        providerCalls := draftCalls }

end AppAlt

namespace ServiceV2

theorem summarizeFile_events (decode : String → Option String)
    (provider : String → List ContentPart → Nat → CallResult String)
    (f : UploadedFile) :
    (summarizeFile decode provider f).2
      = if supportedFormat f then [ApiEvent.summarize f.name] else [] := by
  have h := prepareFilePart_isSome decode f
  unfold summarizeFile
  cases hp : prepareFilePart decode f with
  | none =>
    rw [hp] at h
    simp only [Option.isSome_none] at h
    simp [← h]
  | some part =>
    rw [hp] at h
    simp only [Option.isSome_some] at h
    cases hc : provider "gemini-2.5-flash" [part, .text summarizePrompt] 0 <;>
      simp [hc, ← h]

theorem summarizeLoop_events (decode : String → Option String)
    (provider : String → List ContentPart → Nat → CallResult String)
    (files : List UploadedFile) :
    (summarizeLoop decode provider files).2
      = files.flatMap (fun f =>
          (if supportedFormat f then [ApiEvent.summarize f.name] else [])
            ++ [ApiEvent.pause 500]) := by
  induction files with
  | nil => simp [summarizeLoop]
  | cons f rest ih =>
    simp [summarizeLoop, summarizeFile_events, ih]

/-- Counting the summarization events of the map-reduce trace: one per
supported-format document. -/
theorem summarize_count (files : List UploadedFile) :
    ((files.flatMap (fun f =>
        (if supportedFormat f then [ApiEvent.summarize f.name] else [])
          ++ [ApiEvent.pause 500])).filter ApiEvent.isSummarize).length
      = (files.filter supportedFormat).length := by
  induction files with
  | nil => simp
  | cons f rest ih =>
    by_cases h : supportedFormat f = true <;>
      simp [List.flatMap_cons, List.filter_append, List.filter_cons, h,
        ApiEvent.isSummarize, ih]

end ServiceV2

/-! ### Concrete demonstration inputs

Used by the closed counterexample and witness theorems below.  `demoDecode`
stands for a successful `atob`/UTF-8 decode; `demoJsonParse` mirrors
`JSON.parse` on the inputs that actually occur: it succeeds exactly on the
empty-object literal `"{}"` and throws a syntax error otherwise. -/

def demoDecode : String → Option String := fun _ => some "hello"

def demoJsonParse : String → Except String String := fun s =>
  if s = ServiceV2.emptyJsonLiteral then Except.ok s
  else Except.error "Unexpected token in JSON"

def demoTxt1 : UploadedFile := ⟨"a.txt", "text/plain", "aGVsbG8="⟩

def demoTxt2 : UploadedFile := ⟨"b.txt", "text/plain", "d29ybGQ="⟩

def demoPng : UploadedFile := ⟨"scan.png", "image/png", "AAAA"⟩

def demoTex : UploadedFile := ⟨"paper.tex", "application/octet-stream", "XGRvY3VtZW50"⟩

def demoPdf : UploadedFile := ⟨"doc.pdf", "application/pdf", "data:application/pdf;base64,AAECAw=="⟩

def demoSectionA : PaperSection := ⟨"Introduction", "Introduction", "Introduction", "", false, ""⟩

def demoSectionB : PaperSection := ⟨"Results", "Results", "Results", "manual edit", false, "keep"⟩

def demoChatMsg : ChatMessage := ⟨"user", "please keep this turn", 17⟩

def demoState : ResearchState :=
  { files := [demoTxt1], paperTitle := "T", researchGap := "G",
    noveltyClaim := "N", targetJournal := "J", methodologyPlan := "M",
    expectedResults := "E", qualityChecklist := none,
    extractedReferences := [], chatHistory := [demoChatMsg],
    isChatOpen := true, sections := [demoSectionA, demoSectionB],
    activeSectionId := some "Introduction" }

def demoEmptyState : ResearchState :=
  { demoState with noveltyClaim := "" }

/-! ### Claim theorems -/

/-- C2 counterexample: the error message "Rate limit exceeded" contains
the (lowercased) substring "rate limit" and none of the other markers,
yet the second revision's `callWithRetry` classifies it as
non-transient and, with all 3 retries remaining, propagates it after
the very first attempt with zero delays — it does not retry. -/
theorem c2_counterexample :
    strContains (strToLower "Rate limit exceeded") "rate limit" = true
    ∧ isRetryableV2 (strToLower "Rate limit exceeded") = false
    ∧ callWithRetry isRetryableV2
        (fun _ => (CallResult.err "Rate limit exceeded" : CallResult String))
        3 2000
      = (CallResult.err "Rate limit exceeded", []) :=
  ⟨rfl, rfl, rfl⟩

/-- C2 (amended): errors whose lowercased message contains "429", "503",
"quota", "resource exhausted" or "rate limit" are classified transient
and retried (when retries remain) by the first revision's `callWithRetry`
(classifier `isRetryableV1`); the second revision's `callWithRetry`
(classifier `isRetryableV2`) treats only the first four markers that
way — a message containing "rate limit" but none of the four is
propagated immediately without any retry. -/
theorem c2_amended {α : Type} (msg : String) (fn : Nat → CallResult α)
    (r d : Nat) (h : fn 0 = .err msg) :
    ((strContains (strToLower msg) "429" || strContains (strToLower msg) "503"
      || strContains (strToLower msg) "quota"
      || strContains (strToLower msg) "resource exhausted"
      || strContains (strToLower msg) "rate limit") = true →
      callWithRetry isRetryableV1 fn (r + 1) d =
        ((callWithRetry isRetryableV1 (fun k => fn (k + 1)) r (d * 2)).1,
          d :: (callWithRetry isRetryableV1 (fun k => fn (k + 1)) r (d * 2)).2))
    ∧ ((strContains (strToLower msg) "429" || strContains (strToLower msg) "503"
      || strContains (strToLower msg) "quota"
      || strContains (strToLower msg) "resource exhausted") = true →
      callWithRetry isRetryableV2 fn (r + 1) d =
        ((callWithRetry isRetryableV2 (fun k => fn (k + 1)) r (d * 2)).1,
          d :: (callWithRetry isRetryableV2 (fun k => fn (k + 1)) r (d * 2)).2))
    ∧ (strContains (strToLower msg) "rate limit" = true →
      (strContains (strToLower msg) "429" || strContains (strToLower msg) "503"
        || strContains (strToLower msg) "quota"
        || strContains (strToLower msg) "resource exhausted") = false →
      ∀ retries, callWithRetry isRetryableV2 fn retries d = (.err msg, [])) := by
  refine ⟨fun hm => ?_, fun hm => ?_, fun _ hm retries => ?_⟩
  · exact callWithRetry_err_retry isRetryableV1 r d h (by
      simpa [isRetryableV1, Bool.or_assoc] using hm)
  · exact callWithRetry_err_retry isRetryableV2 r d h (by
      simpa [isRetryableV2, Bool.or_assoc] using hm)
  · exact callWithRetry_err_final isRetryableV2 retries d h (by
      simpa [isRetryableV2, Bool.or_assoc] using hm)

/-- Witness for `c2_amended`: "Rate limit hit" is retried by the first
revision (one wait of 2000 ms performed before the recursive call),
"HTTP 429" is retried by the second revision, and "Rate limit hit" is
propagated immediately (no delays) by the second revision. -/
theorem c2_amended_witness :
    (callWithRetry isRetryableV1
        (fun _ => (CallResult.err "Rate limit hit" : CallResult String)) 1 2000).2
      = [2000]
    ∧ (callWithRetry isRetryableV2
        (fun _ => (CallResult.err "HTTP 429" : CallResult String)) 1 2000).2
      = [2000]
    ∧ callWithRetry isRetryableV2
        (fun _ => (CallResult.err "Rate limit hit" : CallResult String)) 1 2000
      = (CallResult.err "Rate limit hit", []) := by
  refine ⟨?_, ?_, ?_⟩
  · rw [(c2_amended "Rate limit hit"
      (fun _ => (CallResult.err "Rate limit hit" : CallResult String)) 0 2000
      rfl).1 (by decide)]
    rfl
  · rw [(c2_amended "HTTP 429"
      (fun _ => (CallResult.err "HTTP 429" : CallResult String)) 0 2000
      rfl).2.1 (by decide)]
    rfl
  · exact (c2_amended "Rate limit hit"
      (fun _ => (CallResult.err "Rate limit hit" : CallResult String)) 0 2000
      rfl).2.2 (by decide) (by decide) 1

/-- C3: `callWithRetry` (either revision's classifier `isR`):
a non-transient failure is propagated unchanged after the very first
attempt with zero delays; a transient failure with retries remaining
waits `d` and recurses on the shifted operation with one retry fewer
and the doubled delay; with retries exhausted the error is propagated
unchanged; and under the defaults (3 retries, 2000 ms) an operation
that keeps failing transiently incurs exactly the waits 2000, 4000,
8000 ms before the error is propagated unchanged. -/
theorem c3_retry_governor {α : Type} (isR : String → Bool)
    (fn : Nat → CallResult α) (retries d : Nat) (e : String)
    (h : fn 0 = .err e) :
    (isR (strToLower e) = false →
      callWithRetry isR fn retries d = (.err e, []))
    ∧ (isR (strToLower e) = true → ∀ r, retries = r + 1 →
      callWithRetry isR fn retries d =
        ((callWithRetry isR (fun k => fn (k + 1)) r (d * 2)).1,
          d :: (callWithRetry isR (fun k => fn (k + 1)) r (d * 2)).2))
    ∧ (isR (strToLower e) = true →
      callWithRetry isR fn 0 d = (.err e, []))
    ∧ ((∀ k, fn k = .err e) → isR (strToLower e) = true →
      callWithRetry isR fn 3 2000 = (.err e, [2000, 4000, 8000])) := by
  refine ⟨fun hR => callWithRetry_err_final isR retries d h hR,
    fun hR r hr => ?_,
    fun _ => callWithRetry_err_exhausted isR d h,
    fun hall hR => callWithRetry_default_schedule isR hall hR⟩
  subst hr
  exact callWithRetry_err_retry isR r d h hR

/-- Witness for `c3_retry_governor`: a fatal error is propagated at once
with no delays, and a persistent "quota" error under the defaults is
propagated after exactly the waits 2000, 4000, 8000 ms. -/
theorem c3_retry_governor_witness :
    callWithRetry isRetryableV1
        (fun _ => (CallResult.err "invalid api key" : CallResult String)) 3 2000
      = (CallResult.err "invalid api key", [])
    ∧ callWithRetry isRetryableV1
        (fun _ => (CallResult.err "Quota exceeded" : CallResult String)) 3 2000
      = (CallResult.err "Quota exceeded", [2000, 4000, 8000]) :=
  ⟨(c3_retry_governor isRetryableV1
      (fun _ => (CallResult.err "invalid api key" : CallResult String)) 3 2000
      "invalid api key" rfl).1 (by decide),
   (c3_retry_governor isRetryableV1
      (fun _ => (CallResult.err "Quota exceeded" : CallResult String)) 3 2000
      "Quota exceeded" rfl).2.2.2 (fun _ => rfl) (by decide)⟩

/-- C1 counterexample: a run of the second (fallback-router) revision of
`analyzeFilesForNovelty` in which the provider succeeds with an *empty*
text body.  The claim demands a thrown error; instead the function
returns successfully with the parse of the defaulted literal `"{}"` —
an empty `AnalysisResult` object (here `demoJsonParse` mirrors
`JSON.parse`, which succeeds on `"{}"`). -/
theorem c1_counterexample :
    (ServiceV2.analyzeFilesForNovelty demoDecode demoJsonParse
        (fun _ _ _ => CallResult.ok "") [demoTxt1]).1
      = Except.ok ServiceV2.emptyJsonLiteral :=
  rfl

/-- C1 (amended): a provider response whose non-empty text fails to parse
as JSON is a hard failure in both revisions of `analyzeFilesForNovelty`
(the first propagates the parse error's message; the second surfaces
"Analysis failed after retries: …" once the fallback tier's text also
fails to parse).  An empty text body is a hard failure ("Empty response
from AI") only in the first revision; the second revision defaults an
empty body to the literal `"{}"` and returns its parse — an empty
object — instead of throwing. -/
theorem c1_amended {α : Type} (decode : String → Option String)
    (JP : String → Except String α)
    (provider : String → List ContentPart → Nat → CallResult String)
    (files : List UploadedFile) :
    ((ServiceV1.prepareFileParts decode files).length ≠ 0 →
      (∀ parts, provider "gemini-3-pro-preview" parts 0 = .ok "") →
      ServiceV1.analyzeFilesForNovelty decode JP provider files
        = .error "Empty response from AI")
    ∧ (∀ t e, (ServiceV1.prepareFileParts decode files).length ≠ 0 →
      (∀ parts, provider "gemini-3-pro-preview" parts 0 = .ok t) →
      t ≠ "" → JP t = .error e → e ≠ "" →
      ServiceV1.analyzeFilesForNovelty decode JP provider files = .error e)
    ∧ (∀ v, (∀ parts, provider "gemini-3-pro-preview" parts 0 = .ok "") →
      JP ServiceV2.emptyJsonLiteral = .ok v →
      (ServiceV2.analyzeFilesForNovelty decode JP provider files).1 = .ok v)
    ∧ (∀ t1 t2 e1 e2,
      (∀ parts, provider "gemini-3-pro-preview" parts 0 = .ok t1) →
      (∀ parts, provider "gemini-2.5-flash" parts 0 = .ok t2) →
      t1 ≠ "" → t2 ≠ "" → JP t1 = .error e1 → JP t2 = .error e2 →
      (ServiceV2.analyzeFilesForNovelty decode JP provider files).1
        = .error ("Analysis failed after retries: " ++ e2)) := by
  refine ⟨fun hne hprov => ?_, fun t e hne hprov ht hJP he => ?_,
    fun v hprov hJP => ?_, fun t1 t2 e1 e2 hpro hflash ht1 ht2 hJP1 hJP2 => ?_⟩
  · simp only [ServiceV1.analyzeFilesForNovelty]
    rw [if_neg hne, callWithRetry_ok isRetryableV1 3 2000 (hprov _)]
    simp
  · simp only [ServiceV1.analyzeFilesForNovelty]
    rw [if_neg hne, callWithRetry_ok isRetryableV1 3 2000 (hprov _)]
    simp [ht, hJP, he]
  · simp only [ServiceV2.analyzeFilesForNovelty]
    rw [callWithRetry_ok isRetryableV2 3 2000 (hprov _)]
    simp [hJP]
  · simp only [ServiceV2.analyzeFilesForNovelty]
    rw [callWithRetry_ok isRetryableV2 3 2000 (hpro _),
      callWithRetry_ok isRetryableV2 3 2000 (hflash _)]
    simp [ht1, ht2, hJP1, hJP2]

/-- Witness for `c1_amended`, at concrete inputs: the first revision
throws "Empty response from AI" on an empty body and propagates a parse
error's message on an unparseable body; the second revision returns the
defaulted `"{}"`-parse on an empty body and surfaces the prefixed final
error when both tiers yield unparseable text. -/
theorem c1_amended_witness :
    ServiceV1.analyzeFilesForNovelty demoDecode demoJsonParse
        (fun _ _ _ => CallResult.ok "") [demoTxt1]
      = Except.error "Empty response from AI"
    ∧ ServiceV1.analyzeFilesForNovelty demoDecode demoJsonParse
        (fun _ _ _ => CallResult.ok "not json") [demoTxt1]
      = Except.error "Unexpected token in JSON"
    ∧ (ServiceV2.analyzeFilesForNovelty demoDecode demoJsonParse
        (fun _ _ _ => CallResult.ok "") [demoTxt1]).1
      = Except.ok ServiceV2.emptyJsonLiteral
    ∧ (ServiceV2.analyzeFilesForNovelty demoDecode demoJsonParse
        (fun _ _ _ => CallResult.ok "not json") [demoTxt1]).1
      = Except.error ("Analysis failed after retries: "
          ++ "Unexpected token in JSON") :=
  ⟨(c1_amended demoDecode demoJsonParse (fun _ _ _ => CallResult.ok "")
      [demoTxt1]).1 (by decide) (fun _ => rfl),
   (c1_amended demoDecode demoJsonParse (fun _ _ _ => CallResult.ok "not json")
      [demoTxt1]).2.1 "not json" "Unexpected token in JSON" (by decide)
      (fun _ => rfl) (by decide) rfl (by decide),
   (c1_amended demoDecode demoJsonParse (fun _ _ _ => CallResult.ok "")
      [demoTxt1]).2.2.1 ServiceV2.emptyJsonLiteral (fun _ => rfl) rfl,
   (c1_amended demoDecode demoJsonParse (fun _ _ _ => CallResult.ok "not json")
      [demoTxt1]).2.2.2 "not json" "not json" "Unexpected token in JSON"
      "Unexpected token in JSON" (fun _ => rfl) (fun _ => rfl) (by decide)
      (by decide) rfl rfl⟩

/-- C4: for at most 2 documents, `analyzeFilesForNovelty` (second
revision, the one implementing the Condensation Strategy) runs in
direct-inclusion mode: its trace contains no summarization call (only
the issuance of the single combining request), the parts attached to
that request are exactly `files.map(prepareFilePart).filter(≠ null)`,
their count equals the number of supported-format documents, and an
unsupported-format document contributes no part. -/
theorem c4_direct_mode {α : Type} (decode : String → Option String)
    (JP : String → Except String α)
    (provider : String → List ContentPart → Nat → CallResult String)
    (files : List UploadedFile) (hle : files.length ≤ 2) :
    (ServiceV2.analyzeFilesForNovelty decode JP provider files).2
      = [ApiEvent.combine]
    ∧ (ServiceV2.processingParts decode provider files).1
        = files.filterMap (ServiceV2.prepareFilePart decode)
    ∧ (ServiceV2.processingParts decode provider files).1.length
        = (files.filter ServiceV2.supportedFormat).length
    ∧ (∀ f, ServiceV2.supportedFormat f = false →
        ServiceV2.prepareFilePart decode f = none) := by
  have hnlt : ¬ 2 < files.length := by omega
  refine ⟨?_, ?_, ?_, fun f hf => ?_⟩
  · simp [ServiceV2.analyzeFilesForNovelty, ServiceV2.processingParts, hnlt]
  · simp [ServiceV2.processingParts, hnlt]
  · simp only [ServiceV2.processingParts, hnlt, if_neg]
    exact length_filterMap_eq_count _ _
      (ServiceV2.prepareFilePart_isSome decode) files
  · have h := ServiceV2.prepareFilePart_isSome decode f
    rw [hf] at h
    cases hp : ServiceV2.prepareFilePart decode f with
    | none => rfl
    | some part => rw [hp] at h; simp at h

/-- Witness for `c4_direct_mode`: two documents, one supported text file
and one unsupported image — the trace is just the combining call and
exactly one part (for the supported document) is attached. -/
theorem c4_direct_mode_witness :
    (ServiceV2.analyzeFilesForNovelty demoDecode (fun s => Except.ok s)
        (fun _ _ _ => CallResult.ok "S") [demoTxt1, demoPng]).2
      = [ApiEvent.combine]
    ∧ (ServiceV2.processingParts demoDecode
        (fun _ _ _ => CallResult.ok "S") [demoTxt1, demoPng]).1.length
      = ([demoTxt1, demoPng].filter ServiceV2.supportedFormat).length :=
  ⟨(c4_direct_mode demoDecode (fun s => Except.ok s)
      (fun _ _ _ => CallResult.ok "S") [demoTxt1, demoPng] (by decide)).1,
   (c4_direct_mode demoDecode (fun s => Except.ok s)
      (fun _ _ _ => CallResult.ok "S") [demoTxt1, demoPng] (by decide)).2.2.1⟩

/-- C5 counterexample: three documents (more than 2, so map-reduce mode),
one of which has an unsupported format (`image/png`).  The claim demands
exactly one summarization call per document (3); the run issues only 2 —
the unsupported document is skipped without any provider call. -/
theorem c5_counterexample :
    ((ServiceV2.analyzeFilesForNovelty demoDecode (fun s => Except.ok s)
        (fun _ _ _ => CallResult.ok "S") [demoTxt1, demoTxt2, demoPng]).2.filter
        ApiEvent.isSummarize).length = 2
    ∧ [demoTxt1, demoTxt2, demoPng].length = 3
    ∧ ((ServiceV2.analyzeFilesForNovelty demoDecode (fun s => Except.ok s)
        (fun _ _ _ => CallResult.ok "S") [demoTxt1, demoTxt2, demoPng]).2.filter
        ApiEvent.isSummarize).length ≠ [demoTxt1, demoTxt2, demoPng].length :=
  ⟨rfl, rfl, by decide⟩

/-- C5 (amended): for more than 2 documents, `analyzeFilesForNovelty`
(second revision) switches to map-reduce mode: the trace is exactly, in
file order, one summarization call per *supported-format* document
(unsupported documents are skipped without a call) with the 500 ms pause
after each document, all strictly before the single combining analysis
call; the number of summarization calls equals the number of
supported-format documents. -/
theorem c5_amended {α : Type} (decode : String → Option String)
    (JP : String → Except String α)
    (provider : String → List ContentPart → Nat → CallResult String)
    (files : List UploadedFile) (hgt : 2 < files.length) :
    (ServiceV2.analyzeFilesForNovelty decode JP provider files).2
      = (files.flatMap (fun f =>
          (if ServiceV2.supportedFormat f then [ApiEvent.summarize f.name] else [])
            ++ [ApiEvent.pause 500])) ++ [ApiEvent.combine]
    ∧ ((ServiceV2.analyzeFilesForNovelty decode JP provider files).2.filter
        ApiEvent.isSummarize).length
      = (files.filter ServiceV2.supportedFormat).length := by
  have htrace : (ServiceV2.analyzeFilesForNovelty decode JP provider files).2
      = (files.flatMap (fun f =>
          (if ServiceV2.supportedFormat f then [ApiEvent.summarize f.name] else [])
            ++ [ApiEvent.pause 500])) ++ [ApiEvent.combine] := by
    simp [ServiceV2.analyzeFilesForNovelty, ServiceV2.processingParts, hgt,
      ServiceV2.summarizeLoop_events]
  refine ⟨htrace, ?_⟩
  rw [htrace]
  simp [List.filter_append, ApiEvent.isSummarize, ServiceV2.summarize_count]

/-- Witness for `c5_amended`: three supported text-like documents — the
trace is the three summarization calls, each followed by its pause, then
the combining call, and the summarization count is 3. -/
theorem c5_amended_witness :
    (ServiceV2.analyzeFilesForNovelty demoDecode (fun s => Except.ok s)
        (fun _ _ _ => CallResult.ok "S") [demoTxt1, demoTxt2, demoTex]).2
      = [ApiEvent.summarize "a.txt", ApiEvent.pause 500,
          ApiEvent.summarize "b.txt", ApiEvent.pause 500,
          ApiEvent.summarize "paper.tex", ApiEvent.pause 500, ApiEvent.combine]
    ∧ ((ServiceV2.analyzeFilesForNovelty demoDecode (fun s => Except.ok s)
        (fun _ _ _ => CallResult.ok "S") [demoTxt1, demoTxt2, demoTex]).2.filter
        ApiEvent.isSummarize).length
      = ([demoTxt1, demoTxt2, demoTex].filter ServiceV2.supportedFormat).length := by
  have h := c5_amended demoDecode (fun s => Except.ok s)
    (fun _ _ _ => CallResult.ok "S") [demoTxt1, demoTxt2, demoTex] (by decide)
  exact ⟨by rw [h.1]; rfl, h.2⟩

/-- C6 counterexample: a LaTeX document recognized by file-name suffix
(".tex") with a non-text declared type.  The claim demands a text part;
the first revision's Attachment Preparer (`ServiceV1.prepareFileParts`,
which recognizes only the ".txt"/".md" suffixes) silently drops it. -/
theorem c6_counterexample :
    strEndsWith demoTex.name ".tex" = true
    ∧ strContains demoTex.type "pdf" = false
    ∧ strContains demoTex.type "text" = false
    ∧ ServiceV1.prepareFileParts demoDecode [demoTex] = [] :=
  ⟨rfl, rfl, rfl, rfl⟩

/-- C6 (amended): per uploaded document, the second revision's preparer
(`prepareFilePart`) returns a binary part with the PDF media type when
the declared type indicates PDF; a text part — decoded content prefixed
with a `[Source Document: name]` delimiter line and suffixed with a
`---` separator — when the document is recognized as plain text,
markdown or LaTeX by declared type or name suffix; and no part for any
other format, so prepared lists are never longer than their input.
The first revision's preparer behaves the same except that its
recognized text set is only "text"-typed files and the ".txt"/".md"
suffixes: LaTeX files without a text-like declared type are silently
dropped there. -/
theorem c6_amended (decode : String → Option String) (f : UploadedFile) :
    (strContains f.type "pdf" = true →
      ServiceV2.prepareFilePart decode f
        = some (.inlineData "application/pdf" (cleanBase64 f.data))
      ∧ ServiceV1.prepareFileParts decode [f]
        = [.inlineData "application/pdf" (cleanBase64 f.data)])
    ∧ (strContains f.type "pdf" = false →
      (strContains f.type "text" || strEndsWith f.name ".txt"
        || strEndsWith f.name ".md" || strEndsWith f.name ".tex"
        || strEndsWith f.name ".latex") = true →
      ServiceV2.prepareFilePart decode f
        = some (.text ("[Source Document: " ++ f.name ++ "]\n"
            ++ decodeBase64Text decode (cleanBase64 f.data) ++ "\n---")))
    ∧ (ServiceV2.supportedFormat f = false →
      ServiceV2.prepareFilePart decode f = none)
    ∧ (strContains f.type "pdf" = false →
      (strContains f.type "text" || strEndsWith f.name ".txt"
        || strEndsWith f.name ".md") = true →
      ServiceV1.prepareFileParts decode [f]
        = [.text ("[Source Document: " ++ f.name ++ "]\n"
            ++ decodeBase64Text decode (cleanBase64 f.data) ++ "\n---")])
    ∧ (strContains f.type "pdf" = false →
      (strContains f.type "text" || strEndsWith f.name ".txt"
        || strEndsWith f.name ".md") = false →
      ServiceV1.prepareFileParts decode [f] = [])
    ∧ (∀ files : List UploadedFile,
      (files.filterMap (ServiceV2.prepareFilePart decode)).length ≤ files.length
      ∧ (ServiceV1.prepareFileParts decode files).length ≤ files.length) := by
  refine ⟨fun hpdf => ?_, fun hpdf htext => ?_, fun hunsup => ?_,
    fun hpdf htext => ?_, fun hpdf htext => ?_,
    fun files => ⟨List.length_filterMap_le _ _, List.length_filterMap_le _ _⟩⟩
  · exact ⟨by simp [ServiceV2.prepareFilePart, hpdf],
      by simp [ServiceV1.prepareFileParts, hpdf]⟩
  · simp [ServiceV2.prepareFilePart, hpdf, htext]
  · have h := ServiceV2.prepareFilePart_isSome decode f
    rw [hunsup] at h
    cases hp : ServiceV2.prepareFilePart decode f with
    | none => rfl
    | some part => rw [hp] at h; simp at h
  · unfold ServiceV1.prepareFileParts
    simp only [List.filterMap_cons, List.filterMap_nil]
    rw [hpdf, htext]
    simp
  · unfold ServiceV1.prepareFileParts
    simp only [List.filterMap_cons, List.filterMap_nil]
    rw [hpdf, htext]
    simp

/-- Witness for `c6_amended`: a PDF-typed file yields the binary part, a
".tex" file yields the tagged text part under the second revision, an
image yields no part, and a plain-text file yields the text part under
the first revision while the ".tex" file yields none there. -/
theorem c6_amended_witness :
    ServiceV2.prepareFilePart demoDecode demoPdf
      = some (.inlineData "application/pdf" (cleanBase64 demoPdf.data))
    ∧ ServiceV2.prepareFilePart demoDecode demoTex
      = some (.text ("[Source Document: " ++ demoTex.name ++ "]\n"
          ++ decodeBase64Text demoDecode (cleanBase64 demoTex.data) ++ "\n---"))
    ∧ ServiceV2.prepareFilePart demoDecode demoPng = none
    ∧ ServiceV1.prepareFileParts demoDecode [demoTxt1]
      = [.text ("[Source Document: " ++ demoTxt1.name ++ "]\n"
          ++ decodeBase64Text demoDecode (cleanBase64 demoTxt1.data) ++ "\n---")]
    ∧ ServiceV1.prepareFileParts demoDecode [demoTex] = [] :=
  ⟨((c6_amended demoDecode demoPdf).1 (by decide)).1,
   (c6_amended demoDecode demoTex).2.1 (by decide) (by decide),
   (c6_amended demoDecode demoPng).2.2.1 (by decide),
   (c6_amended demoDecode demoTxt1).2.2.2.1 (by decide) (by decide),
   (c6_amended demoDecode demoTex).2.2.2.2.1 (by decide) (by decide)⟩

/-- C7: in both application shells, a section-drafting request made while
no analysis result exists (`noveltyClaim = ""`, the `!state.noveltyClaim`
guard) is rejected with a user-facing alert before anything else: zero
provider calls are made, no state update is queued, and applying the
(empty) update list to any session state leaves it — in particular its
sections — unchanged.  This holds for every section id and regardless of
what the drafting call would have returned. -/
theorem c7_reject_without_analysis (st0 : ResearchState)
    (sectionId draftContent : String) (draftCalls : Nat)
    (h : st0.noveltyClaim = "") :
    ((AppMain.handleGenerateSection st0 sectionId draftContent
        draftCalls).providerCalls = 0
      ∧ (AppMain.handleGenerateSection st0 sectionId draftContent
          draftCalls).alert = some "Run Analysis first."
      ∧ (AppMain.handleGenerateSection st0 sectionId draftContent
          draftCalls).updates = []
      ∧ ∀ st : ResearchState,
          applyUpdates (AppMain.handleGenerateSection st0 sectionId draftContent
            draftCalls).updates st = st)
    ∧ ((AppAlt.handleGenerateSection st0 sectionId draftContent
        draftCalls).providerCalls = 0
      ∧ (AppAlt.handleGenerateSection st0 sectionId draftContent
          draftCalls).alert = some "Run \x27Deep Analysis\x27 first."
      ∧ (AppAlt.handleGenerateSection st0 sectionId draftContent
          draftCalls).updates = []
      ∧ ∀ st : ResearchState,
          applyUpdates (AppAlt.handleGenerateSection st0 sectionId draftContent
            draftCalls).updates st = st) := by
  constructor
  · refine ⟨?_, ?_, ?_, fun st => ?_⟩ <;>
      simp [AppMain.handleGenerateSection, h, applyUpdates]
  · refine ⟨?_, ?_, ?_, fun st => ?_⟩ <;>
      simp [AppAlt.handleGenerateSection, h, applyUpdates]

/-- Witness for `c7_reject_without_analysis`: a concrete state with an
empty `noveltyClaim` — the request is rejected with the alert, zero
provider calls, and the state (sections included) is untouched. -/
theorem c7_reject_without_analysis_witness :
    (AppMain.handleGenerateSection demoEmptyState "Introduction" "draft"
        1).providerCalls = 0
    ∧ (AppMain.handleGenerateSection demoEmptyState "Introduction" "draft"
        1).alert = some "Run Analysis first."
    ∧ applyUpdates (AppMain.handleGenerateSection demoEmptyState "Introduction"
        "draft" 1).updates demoEmptyState = demoEmptyState
    ∧ (AppAlt.handleGenerateSection demoEmptyState "Introduction" "draft"
        1).providerCalls = 0 :=
  ⟨(c7_reject_without_analysis demoEmptyState "Introduction" "draft" 1 rfl).1.1,
   (c7_reject_without_analysis demoEmptyState "Introduction" "draft" 1 rfl).1.2.1,
   (c7_reject_without_analysis demoEmptyState "Introduction" "draft" 1
      rfl).1.2.2.2 demoEmptyState,
   (c7_reject_without_analysis demoEmptyState "Introduction" "draft" 1 rfl).2.1⟩

/-- C8: the state update committed when a drafting task for section
`sectionId` completes is `commitSection sectionId content`, a functional
update applied to the latest state `st` at commit time.  It preserves
the chat transcript and every non-section field, keeps the section list's
length, leaves every section whose id differs from `sectionId` exactly as
it is in `st` (so concurrent edits to other sections and chat appends
made while the task ran survive), and changes only the target section's
`content` and `isGenerating` fields (its other fields are kept).  The
final conjunct ties this to the handlers: on the successful path both
shells queue exactly `[markGenerating sectionId, commitSection sectionId
content]`, whatever text (draft or degraded error string) the task
produced. -/
theorem c8_commit_frame (st : ResearchState) (sectionId content : String) :
    (commitSection sectionId content st).chatHistory = st.chatHistory
    ∧ (commitSection sectionId content st).files = st.files
    ∧ (commitSection sectionId content st).paperTitle = st.paperTitle
    ∧ (commitSection sectionId content st).noveltyClaim = st.noveltyClaim
    ∧ (commitSection sectionId content st).sections.length = st.sections.length
    ∧ (∀ (i : Nat) (s : PaperSection), st.sections[i]? = some s →
        s.id ≠ sectionId →
        (commitSection sectionId content st).sections[i]? = some s)
    ∧ (∀ (i : Nat) (s : PaperSection), st.sections[i]? = some s →
        s.id = sectionId →
        (commitSection sectionId content st).sections[i]?
          = some { s with isGenerating := false, content := content })
    ∧ (∀ (st0 : ResearchState) (draftCalls : Nat) sec,
        st0.noveltyClaim ≠ "" →
        st0.sections.find? (fun s => s.id == sectionId) = some sec →
        (AppMain.handleGenerateSection st0 sectionId content draftCalls).updates
          = [markGenerating sectionId, commitSection sectionId content]
        ∧ (st0.files.all (fun f => f.data ≠ "") = true →
          (AppAlt.handleGenerateSection st0 sectionId content draftCalls).updates
            = [markGenerating sectionId, commitSection sectionId content])) := by
  refine ⟨rfl, rfl, rfl, rfl, by simp [commitSection], ?_, ?_, ?_⟩
  · intro i s hi hne
    simp only [commitSection, List.getElem?_map, hi, Option.map_some]
    simp [hne]
  · intro i s hi heq
    simp only [commitSection, List.getElem?_map, hi, Option.map_some]
    simp [heq]
  · intro st0 draftCalls sec hnc hfind
    constructor
    · simp [AppMain.handleGenerateSection, hnc, hfind]
    · intro hdata
      unfold AppAlt.handleGenerateSection
      rw [if_neg hnc, hdata]
      simp [hfind]

/-- Witness for `c8_commit_frame`: committing a draft for the
"Introduction" section of a concrete state with a concurrent manual edit
in the "Results" section and one chat turn — the chat transcript and the
other section survive verbatim, the target section carries the new
content with `isGenerating := false`, and the handler's committed update
is exactly `commitSection`. -/
theorem c8_commit_frame_witness :
    (commitSection "Introduction" "draft" demoState).chatHistory
      = demoState.chatHistory
    ∧ (commitSection "Introduction" "draft" demoState).sections[1]?
      = some demoSectionB
    ∧ (commitSection "Introduction" "draft" demoState).sections[0]?
      = some { demoSectionA with isGenerating := false, content := "draft" }
    ∧ (AppMain.handleGenerateSection demoState "Introduction" "draft" 1).updates
      = [markGenerating "Introduction", commitSection "Introduction" "draft"] :=
  ⟨(c8_commit_frame demoState "Introduction" "draft").1,
   (c8_commit_frame demoState "Introduction" "draft").2.2.2.2.2.1 1 demoSectionB
      rfl (by decide),
   (c8_commit_frame demoState "Introduction" "draft").2.2.2.2.2.2.1 0 demoSectionA
      rfl rfl,
   ((c8_commit_frame demoState "Introduction" "draft").2.2.2.2.2.2.2 demoState 1
      demoSectionA (by decide) rfl).1⟩

/-- C9: `applyMagicTool` (for every transform kind) returns the original
input text unchanged whenever its retried provider call ends in an error
or yields an empty text body.  The function is total — the source
catches every error — so it never throws. -/
theorem c9_magic_tool_degrades
    (provider : String → List ContentPart → Nat → CallResult String)
    (text : String) (tool : MagicToolType) :
    (∀ e, (callWithRetry isRetryableV2
        (provider "gemini-2.5-flash"
          [ContentPart.text (ServiceV2.magicPrompt tool text)]) 3 2000).1
        = .err e →
      ServiceV2.applyMagicTool provider text tool = text)
    ∧ ((callWithRetry isRetryableV2
        (provider "gemini-2.5-flash"
          [ContentPart.text (ServiceV2.magicPrompt tool text)]) 3 2000).1
        = .ok "" →
      ServiceV2.applyMagicTool provider text tool = text) := by
  constructor
  · intro e he
    unfold ServiceV2.applyMagicTool
    rw [he]
  · intro he
    unfold ServiceV2.applyMagicTool
    rw [he]
    simp

/-- Witness for `c9_magic_tool_degrades`: a provider that always fails
with a non-transient error, and one that succeeds with an empty body —
both leave the original text unchanged, for a concrete transform kind. -/
theorem c9_magic_tool_degrades_witness :
    ServiceV2.applyMagicTool (fun _ _ _ => CallResult.err "permission denied")
        "original text" MagicToolType.Expand = "original text"
    ∧ ServiceV2.applyMagicTool (fun _ _ _ => CallResult.ok "")
        "original text" MagicToolType.Condense = "original text" :=
  ⟨(c9_magic_tool_degrades (fun _ _ _ => CallResult.err "permission denied")
      "original text" MagicToolType.Expand).1 "permission denied" rfl,
   (c9_magic_tool_degrades (fun _ _ _ => CallResult.ok "")
      "original text" MagicToolType.Condense).2 rfl⟩

/-- C10: `consultCPO` always returns a non-empty reply and never throws
(it is total: the source catches every error at both tiers).  It asks
the preferred tier first (with retries); a non-empty reply is returned
as is and an empty one becomes a fixed message; on failure the fast tier
is tried the same way; and when both tiers fail it returns the fixed
static unavailability message. -/
theorem c10_consult_total
    (provider : String → List ContentPart → Nat → CallResult String)
    (query : String) (history : List ChatMessage) (ctx : ServiceV2.CpoContext) :
    ServiceV2.consultCPO provider query history ctx ≠ ""
    ∧ (∀ t, t ≠ "" →
      (callWithRetry isRetryableV2 (provider "gemini-3-pro-preview"
        [ContentPart.text (ServiceV2.cpoContents query history ctx)]) 3 2000).1
        = .ok t →
      ServiceV2.consultCPO provider query history ctx = t)
    ∧ (∀ e1 e2,
      (callWithRetry isRetryableV2 (provider "gemini-3-pro-preview"
        [ContentPart.text (ServiceV2.cpoContents query history ctx)]) 3 2000).1
        = .err e1 →
      (callWithRetry isRetryableV2 (provider "gemini-2.5-flash"
        [ContentPart.text (ServiceV2.cpoContents query history ctx)]) 3 2000).1
        = .err e2 →
      ServiceV2.consultCPO provider query history ctx
        = "The CPO is currently unavailable (Quota Exceeded).") := by
  refine ⟨?_, fun t ht hok => ?_, fun e1 e2 h1 h2 => ?_⟩
  · simp only [ServiceV2.consultCPO]
    cases h1 : (callWithRetry isRetryableV2 (provider "gemini-3-pro-preview"
        [ContentPart.text (ServiceV2.cpoContents query history ctx)]) 3 2000).1 with
    | ok t =>
      by_cases ht : t = "" <;> simp [h1, ht]
    | err e =>
      cases h2 : (callWithRetry isRetryableV2 (provider "gemini-2.5-flash"
          [ContentPart.text (ServiceV2.cpoContents query history ctx)]) 3 2000).1 with
      | ok t => by_cases ht : t = "" <;> simp [h1, h2, ht]
      | err e2 => simp [h1, h2]
  · simp only [ServiceV2.consultCPO]
    rw [hok]
    simp [ht]
  · simp only [ServiceV2.consultCPO]
    rw [h1, h2]

/-- Witness for `c10_consult_total`: with a provider that always fails
non-transiently, both tiers fail and the static unavailability message —
which is non-empty — is returned. -/
theorem c10_consult_total_witness :
    ServiceV2.consultCPO (fun _ _ _ => CallResult.err "permission denied")
        "Is the gap strong enough?" [demoChatMsg] ⟨"T", "G", "N"⟩
      = "The CPO is currently unavailable (Quota Exceeded)."
    ∧ ServiceV2.consultCPO (fun _ _ _ => CallResult.err "permission denied")
        "Is the gap strong enough?" [demoChatMsg] ⟨"T", "G", "N"⟩ ≠ "" :=
  ⟨(c10_consult_total (fun _ _ _ => CallResult.err "permission denied")
      "Is the gap strong enough?" [demoChatMsg] ⟨"T", "G", "N"⟩).2.2
      "permission denied" "permission denied" rfl rfl,
   (c10_consult_total (fun _ _ _ => CallResult.err "permission denied")
      "Is the gap strong enough?" [demoChatMsg] ⟨"T", "G", "N"⟩).1⟩
